import Mathlib

/-!
Shallow embedding of the change-detection and delta-reconciliation engine of
the claude-code-token-tracker repository (src/robust-tracker.js together with
the persistence layer it calls, src/database.js).

Modelling conventions:
* JavaScript integer counters are embedded as `Int` (subtraction in the source
  is exact and may go negative); the floating-point cost is embedded as `ℚ`,
  keeping the epsilon comparison of `hasAnyTokenChange` decidable.
* Timestamps (`new Date()`, SQL `CURRENT_TIMESTAMP`) are opaque `Nat` values
  threaded explicitly as a `now` argument.
* A missing JSON field (`data.lastX || 0`) is an `Option` field read with
  `Option.getD 0`.
* The SQLite tables are lists of rows in insertion order; `Map` and `Set`
  objects of the tracker are association lists and lists of keys.
* The `isProcessing` re-entrancy guard of `processAllSessions` is a
  concurrency artefact with no effect in this sequential model and is omitted.
-/

/-- Normalized counter snapshot, the result of `extractCompleteSnapshot`. -/
structure Snapshot where
  inputTokens : Int
  outputTokens : Int
  cacheCreationTokens : Int
  cacheReadTokens : Int
  cost : ℚ
  timestamp : Nat
  apiDuration : Int
  totalDuration : Int
  linesAdded : Int
  linesRemoved : Int
  webSearchRequests : Int
deriving Repr, DecidableEq

/-- One project entry of the external `.claude.json` state file. -/
structure ProjectData where
  lastSessionId : Option String
  lastTotalInputTokens : Option Int
  lastTotalOutputTokens : Option Int
  lastTotalCacheCreationInputTokens : Option Int
  lastTotalCacheReadInputTokens : Option Int
  lastCost : Option ℚ
  lastAPIDuration : Option Int
  lastDuration : Option Int
  lastLinesAdded : Option Int
  lastLinesRemoved : Option Int
  lastTotalWebSearchRequests : Option Int
deriving Repr, DecidableEq

/-- Signed per-field differences, the result of `calculatePreciseDeltas`. -/
structure DeltaRecord where
  input : Int
  output : Int
  cacheCreation : Int
  cacheRead : Int
  cost : ℚ
deriving Repr, DecidableEq

/-- Embeds `extractCompleteSnapshot(projectData)`; `now` stands for the
`new Date().toISOString()` capture instant. -/
def extractCompleteSnapshot (projectData : ProjectData) (now : Nat) : Snapshot :=
  { inputTokens := projectData.lastTotalInputTokens.getD 0
    outputTokens := projectData.lastTotalOutputTokens.getD 0
    cacheCreationTokens := projectData.lastTotalCacheCreationInputTokens.getD 0
    cacheReadTokens := projectData.lastTotalCacheReadInputTokens.getD 0
    cost := projectData.lastCost.getD 0
    timestamp := now
    apiDuration := projectData.lastAPIDuration.getD 0
    totalDuration := projectData.lastDuration.getD 0
    linesAdded := projectData.lastLinesAdded.getD 0
    linesRemoved := projectData.lastLinesRemoved.getD 0
    webSearchRequests := projectData.lastTotalWebSearchRequests.getD 0 }

/-- The floating-point tolerance `0.000001` used for the cost comparison. -/
def costEpsilon : ℚ := 1 / 1000000

/-- Embeds `hasAnyTokenChange(previous, current)`. -/
def hasAnyTokenChange (previous current : Snapshot) : Bool :=
  (current.inputTokens != previous.inputTokens) ||
  (current.outputTokens != previous.outputTokens) ||
  (current.cacheCreationTokens != previous.cacheCreationTokens) ||
  (current.cacheReadTokens != previous.cacheReadTokens) ||
  decide (costEpsilon < |current.cost - previous.cost|) ||
  (current.linesAdded != previous.linesAdded) ||
  (current.linesRemoved != previous.linesRemoved) ||
  (current.webSearchRequests != previous.webSearchRequests)

/-- Embeds `calculatePreciseDeltas(previous, current)`. -/
def calculatePreciseDeltas (previous current : Snapshot) : DeltaRecord :=
  { input := current.inputTokens - previous.inputTokens
    output := current.outputTokens - previous.outputTokens
    cacheCreation := current.cacheCreationTokens - previous.cacheCreationTokens
    cacheRead := current.cacheReadTokens - previous.cacheReadTokens
    cost := current.cost - previous.cost }

/-- C1: the change detector returns true exactly when one of the eight tracked
counters differs, counting the cost as differing when the absolute difference
exceeds the 1e-6 epsilon; the right-hand side mentions no timestamp or
duration field, so a timestamp-only difference never yields true. -/
theorem hasAnyTokenChange_iff (previous current : Snapshot) :
    hasAnyTokenChange previous current = true ↔
      (current.inputTokens ≠ previous.inputTokens ∨
       current.outputTokens ≠ previous.outputTokens ∨
       current.cacheCreationTokens ≠ previous.cacheCreationTokens ∨
       current.cacheReadTokens ≠ previous.cacheReadTokens ∨
       costEpsilon < |current.cost - previous.cost| ∨
       current.linesAdded ≠ previous.linesAdded ∨
       current.linesRemoved ≠ previous.linesRemoved ∨
       current.webSearchRequests ≠ previous.webSearchRequests) := by
  simp [hasAnyTokenChange, or_assoc]

/-- C2: under the raw delta policy each field carried by the delta is
current minus previous, so the round-trip law `a.field + delta.field = b.field`
holds for every such field, and a delta field can be negative. -/
theorem calculatePreciseDeltas_roundTrip (a b : Snapshot) :
    a.inputTokens + (calculatePreciseDeltas a b).input = b.inputTokens ∧
    a.outputTokens + (calculatePreciseDeltas a b).output = b.outputTokens ∧
    a.cacheCreationTokens + (calculatePreciseDeltas a b).cacheCreation
      = b.cacheCreationTokens ∧
    a.cacheReadTokens + (calculatePreciseDeltas a b).cacheRead
      = b.cacheReadTokens ∧
    a.cost + (calculatePreciseDeltas a b).cost = b.cost ∧
    (calculatePreciseDeltas a b).input = b.inputTokens - a.inputTokens ∧
    (calculatePreciseDeltas a b).output = b.outputTokens - a.outputTokens ∧
    (calculatePreciseDeltas a b).cacheCreation
      = b.cacheCreationTokens - a.cacheCreationTokens ∧
    (calculatePreciseDeltas a b).cacheRead
      = b.cacheReadTokens - a.cacheReadTokens ∧
    (calculatePreciseDeltas a b).cost = b.cost - a.cost ∧
    ∃ p c : Snapshot, (calculatePreciseDeltas p c).input < 0 := by
  refine ⟨by simp [calculatePreciseDeltas], by simp [calculatePreciseDeltas],
    by simp [calculatePreciseDeltas], by simp [calculatePreciseDeltas],
    by simp [calculatePreciseDeltas], rfl, rfl, rfl, rfl, rfl, ?_⟩
  exact ⟨⟨1, 0, 0, 0, 0, 0, 0, 0, 0, 0, 0⟩, ⟨0, 0, 0, 0, 0, 0, 0, 0, 0, 0, 0⟩,
    by decide⟩

/-- Row of the `sessions` table. -/
structure SessionRow where
  id : String
  projectPath : String
  startedAt : Nat
  endedAt : Option Nat
  totalInputTokens : Int
  totalOutputTokens : Int
  totalCacheCreationTokens : Int
  totalCacheReadTokens : Int
  totalCostUsd : ℚ
  apiDurationMs : Int
  totalDurationMs : Int
  linesAdded : Int
  linesRemoved : Int
  webSearchRequests : Int
deriving Repr, DecidableEq

/-- Row of the `session_snapshots` table; `rawData` stands for the stored
`JSON.stringify(data)` payload. -/
structure SnapshotRow where
  sessionId : String
  projectPath : String
  timestamp : Nat
  rawData : ProjectData
  inputTokens : Int
  outputTokens : Int
  cacheCreationTokens : Int
  cacheReadTokens : Int
  costUsd : ℚ
deriving Repr, DecidableEq

/-- Row of the `conversations` table (one Delta Record). -/
structure ConversationRow where
  sessionId : String
  conversationIndex : Nat
  startedAt : Nat
  inputTokens : Int
  outputTokens : Int
  cacheCreationTokens : Int
  cacheReadTokens : Int
  costUsd : ℚ
deriving Repr, DecidableEq

/-- The three tables of `TokenDatabase`, each in insertion order. -/
structure TokenDatabase where
  sessions : List SessionRow
  conversations : List ConversationRow
  snapshots : List SnapshotRow
deriving Repr, DecidableEq

/-- Embeds `SELECT * FROM sessions WHERE id = ?`. -/
def findSession (db : TokenDatabase) (sessionId : String) : Option SessionRow :=
  db.sessions.find? (fun s => s.id == sessionId)

/-- Fresh `sessions` row as inserted by `getOrCreateSession`: all counters at
their SQL defaults, `started_at` at the current instant. -/
def newSessionRow (sessionId projectPath : String) (now : Nat) : SessionRow :=
  { id := sessionId, projectPath := projectPath, startedAt := now,
    endedAt := none, totalInputTokens := 0, totalOutputTokens := 0,
    totalCacheCreationTokens := 0, totalCacheReadTokens := 0,
    totalCostUsd := 0, apiDurationMs := 0, totalDurationMs := 0,
    linesAdded := 0, linesRemoved := 0, webSearchRequests := 0 }

/-- Embeds `getOrCreateSession(sessionId, projectPath)`: insert only when no
row with this id exists. -/
def getOrCreateSession (db : TokenDatabase) (sessionId projectPath : String)
    (now : Nat) : TokenDatabase :=
  match findSession db sessionId with
  | some _ => db
  | none =>
      { db with sessions := db.sessions ++ [newSessionRow sessionId projectPath now] }

/-- The `session_snapshots` row inserted by `recordSnapshot`. -/
def snapshotRowOf (sessionId projectPath : String) (data : ProjectData)
    (now : Nat) : SnapshotRow :=
  { sessionId := sessionId, projectPath := projectPath, timestamp := now,
    rawData := data,
    inputTokens := data.lastTotalInputTokens.getD 0,
    outputTokens := data.lastTotalOutputTokens.getD 0,
    cacheCreationTokens := data.lastTotalCacheCreationInputTokens.getD 0,
    cacheReadTokens := data.lastTotalCacheReadInputTokens.getD 0,
    costUsd := data.lastCost.getD 0 }

/-- Embeds `recordSnapshot(sessionId, projectPath, data)`: unconditional
append to the audit trail. -/
def recordSnapshot (db : TokenDatabase) (sessionId projectPath : String)
    (data : ProjectData) (now : Nat) : TokenDatabase :=
  { db with snapshots := db.snapshots ++ [snapshotRowOf sessionId projectPath data now] }

/-- The effect of the `UPDATE sessions SET ...` statement on one matching row. -/
def updateSessionRow (s : SessionRow) (data : ProjectData) (now : Nat) : SessionRow :=
  { s with
    endedAt := some now,
    totalInputTokens := data.lastTotalInputTokens.getD 0,
    totalOutputTokens := data.lastTotalOutputTokens.getD 0,
    totalCacheCreationTokens := data.lastTotalCacheCreationInputTokens.getD 0,
    totalCacheReadTokens := data.lastTotalCacheReadInputTokens.getD 0,
    totalCostUsd := data.lastCost.getD 0,
    apiDurationMs := data.lastAPIDuration.getD 0,
    totalDurationMs := data.lastDuration.getD 0,
    linesAdded := data.lastLinesAdded.getD 0,
    linesRemoved := data.lastLinesRemoved.getD 0,
    webSearchRequests := data.lastTotalWebSearchRequests.getD 0 }

/-- Embeds `updateSession(sessionId, data)`: overwrite the cumulative totals
of every row whose id matches (the id is a primary key, so at most one). -/
def updateSession (db : TokenDatabase) (sessionId : String) (data : ProjectData)
    (now : Nat) : TokenDatabase :=
  let updated :=
    db.sessions.map (fun s => if s.id == sessionId then updateSessionRow s data now else s)
  { db with sessions := updated }

/-- Embeds `recordConversation(sessionId, deltaTokens)`: count the existing
rows of the session and insert with `conversation_index = count + 1`. -/
def recordConversation (db : TokenDatabase) (sessionId : String)
    (deltaTokens : DeltaRecord) (now : Nat) : TokenDatabase :=
  let conversationCount :=
    (db.conversations.filter (fun c => c.sessionId == sessionId)).length
  { db with conversations := db.conversations ++
      [{ sessionId := sessionId, conversationIndex := conversationCount + 1,
         startedAt := now,
         inputTokens := deltaTokens.input, outputTokens := deltaTokens.output,
         cacheCreationTokens := deltaTokens.cacheCreation,
         cacheReadTokens := deltaTokens.cacheRead,
         costUsd := deltaTokens.cost }] }

/-- In-memory state of `RobustClaudeTokenTracker`: the database handle, the
`sessionSnapshots` map from session id to last known snapshot, the
`activeSessions` set of project paths, and the error-counter fields. -/
structure TrackerState where
  db : TokenDatabase
  sessionSnapshots : List (String × Snapshot)
  activeSessions : List String
  consecutiveErrors : Nat
  maxErrors : Nat
deriving Repr, DecidableEq

/-- Embeds `this.sessionSnapshots.get(sessionId)`. -/
def lookupSnapshot (m : List (String × Snapshot)) (sessionId : String) :
    Option Snapshot :=
  (m.find? (fun p => p.1 == sessionId)).map Prod.snd

/-- Embeds `this.sessionSnapshots.set(sessionId, snapshot)`: overwrite the
entry in place when the key is present, append otherwise. -/
def setSnapshot (m : List (String × Snapshot)) (sessionId : String)
    (snapshot : Snapshot) : List (String × Snapshot) :=
  if m.any (fun p => p.1 == sessionId) then
    m.map (fun p => if p.1 == sessionId then (sessionId, snapshot) else p)
  else
    m ++ [(sessionId, snapshot)]

/-- Embeds `this.activeSessions.add(projectPath)`. -/
def addActive (active : List String) (projectPath : String) : List String :=
  if active.contains projectPath then active else active ++ [projectPath]

/-- Embeds `this.activeSessions.delete(projectPath)`. -/
def removeActive (active : List String) (projectPath : String) : List String :=
  active.filter (fun p => p != projectPath)

/-- Embeds `processSession(projectPath, projectData)`; `sessionId` is the
`projectData.lastSessionId` value under which the caller entered the branch. -/
def processSession (st : TrackerState) (projectPath sessionId : String)
    (projectData : ProjectData) (now : Nat) : TrackerState :=
  let currentSnapshot := extractCompleteSnapshot projectData now
  let lastSnapshot := lookupSnapshot st.sessionSnapshots sessionId
  let active := addActive st.activeSessions projectPath
  let db1 := getOrCreateSession st.db sessionId projectPath now
  let db2 := recordSnapshot db1 sessionId projectPath projectData now
  let db3 :=
    match lastSnapshot with
    | some last =>
        if hasAnyTokenChange last currentSnapshot then
          recordConversation db2 sessionId (calculatePreciseDeltas last currentSnapshot) now
        else db2
    | none => db2
  let db4 := updateSession db3 sessionId projectData now
  { st with db := db4, activeSessions := active,
            sessionSnapshots := setSnapshot st.sessionSnapshots sessionId currentSnapshot }

/-- One reading of the external state file. -/
inductive Source where
  | absent
  | malformed
  | parsed (projects : Option (List (String × ProjectData)))
deriving Repr, DecidableEq

/-- Outcome of one reconciliation cycle: the tracker state afterwards,
whether the cycle threw, and how many project entries were observed. -/
structure CycleResult where
  state : TrackerState
  failed : Bool
  projectsObserved : Nat
deriving Repr, DecidableEq

/-- The per-project loop body of `processAllSessions`. -/
def processProjects (st : TrackerState)
    (projects : List (String × ProjectData)) (now : Nat) : TrackerState :=
  projects.foldl
    (fun s pp =>
      match pp.2.lastSessionId with
      | some sessionId => processSession s pp.1 sessionId pp.2 now
      | none => { s with activeSessions := removeActive s.activeSessions pp.1 })
    st

/-- Embeds `processAllSessions()`: a missing file or a missing `projects`
object clears the active set and succeeds; unparseable content throws before
touching any state; otherwise every project entry is processed against the
one frozen reading and stale active paths are cleaned up. -/
def processAllSessions (st : TrackerState) (src : Source) (now : Nat) :
    CycleResult :=
  match src with
  | .absent => { state := { st with activeSessions := [] }, failed := false,
                 projectsObserved := 0 }
  | .malformed => { state := st, failed := true, projectsObserved := 0 }
  | .parsed none => { state := { st with activeSessions := [] },
                      failed := false, projectsObserved := 0 }
  | .parsed (some projects) =>
      let currentProjectPaths := projects.map Prod.fst
      let st1 := processProjects st projects now
      let cleaned := st1.activeSessions.filter (fun p => currentProjectPaths.contains p)
      { state := { st1 with activeSessions := cleaned }, failed := false,
        projectsObserved := projects.length }

/-- Scheduler state of `startAdaptivePolling`: the tracker it drives, the
closure variable `currentInterval`, and whether `shutdown()` has run. -/
structure SchedState where
  tracker : TrackerState
  currentInterval : Nat
  stopped : Bool
deriving Repr, DecidableEq

/-- Embeds one firing of the `poll` closure of `startAdaptivePolling` on the
source reading `src`. Returns the new scheduler state and whether the
repeating timer was re-armed (`clearInterval` plus `setInterval`). A stopped
scheduler never runs a cycle again. -/
def poll (s : SchedState) (src : Source) (now : Nat) : SchedState × Bool :=
  if s.stopped then (s, false)
  else
    let r := processAllSessions s.tracker src now
    if r.failed then
      let tracker1 : TrackerState :=
        { r.state with consecutiveErrors := r.state.consecutiveErrors + 1 }
      if tracker1.maxErrors ≤ tracker1.consecutiveErrors then
        ({ s with tracker := tracker1, stopped := true }, false)
      else
        ({ s with tracker := tracker1 }, false)
    else
      let tracker1 : TrackerState := { r.state with consecutiveErrors := 0 }
      let newInterval : Nat := if 0 < tracker1.activeSessions.length then 500 else 2000
      if newInterval != s.currentInterval then
        ({ tracker := tracker1, currentInterval := newInterval, stopped := false }, true)
      else
        ({ s with tracker := tracker1 }, false)

/-- Embeds entry into `startAdaptivePolling()`: the closure starts with
`currentInterval = 500` and the tracker running. -/
def startAdaptivePolling (tracker : TrackerState) : SchedState :=
  { tracker := tracker, currentInterval := 500, stopped := false }

/-- Folds `poll` over a list of timestamped source readings. -/
def pollRun (s : SchedState) (events : List (Source × Nat)) : SchedState :=
  events.foldl (fun st e => (poll st e.1 e.2).1) s

theorem snapshots_getOrCreateSession (db : TokenDatabase) (sid pp : String)
    (now : Nat) : (getOrCreateSession db sid pp now).snapshots = db.snapshots := by
  cases hf : findSession db sid <;> simp [getOrCreateSession, hf]

theorem conversations_getOrCreateSession (db : TokenDatabase) (sid pp : String)
    (now : Nat) :
    (getOrCreateSession db sid pp now).conversations = db.conversations := by
  cases hf : findSession db sid <;> simp [getOrCreateSession, hf]

theorem snapshots_recordSnapshot (db : TokenDatabase) (sid pp : String)
    (data : ProjectData) (now : Nat) :
    (recordSnapshot db sid pp data now).snapshots
      = db.snapshots ++ [snapshotRowOf sid pp data now] := rfl

theorem conversations_recordSnapshot (db : TokenDatabase) (sid pp : String)
    (data : ProjectData) (now : Nat) :
    (recordSnapshot db sid pp data now).conversations = db.conversations := rfl

theorem sessions_recordSnapshot (db : TokenDatabase) (sid pp : String)
    (data : ProjectData) (now : Nat) :
    (recordSnapshot db sid pp data now).sessions = db.sessions := rfl

theorem snapshots_updateSession (db : TokenDatabase) (sid : String)
    (data : ProjectData) (now : Nat) :
    (updateSession db sid data now).snapshots = db.snapshots := rfl

theorem conversations_updateSession (db : TokenDatabase) (sid : String)
    (data : ProjectData) (now : Nat) :
    (updateSession db sid data now).conversations = db.conversations := rfl

theorem sessions_updateSession (db : TokenDatabase) (sid : String)
    (data : ProjectData) (now : Nat) :
    (updateSession db sid data now).sessions
      = db.sessions.map
          (fun s => if s.id == sid then updateSessionRow s data now else s) := rfl

theorem snapshots_recordConversation (db : TokenDatabase) (sid : String)
    (d : DeltaRecord) (now : Nat) :
    (recordConversation db sid d now).snapshots = db.snapshots := rfl

theorem sessions_recordConversation (db : TokenDatabase) (sid : String)
    (d : DeltaRecord) (now : Nat) :
    (recordConversation db sid d now).sessions = db.sessions := rfl

theorem id_updateSessionRow (s : SessionRow) (data : ProjectData) (now : Nat) :
    (updateSessionRow s data now).id = s.id := rfl

theorem startedAt_updateSessionRow (s : SessionRow) (data : ProjectData)
    (now : Nat) : (updateSessionRow s data now).startedAt = s.startedAt := rfl

theorem find?_map_update (l : List SessionRow) (sid : String)
    (data : ProjectData) (now : Nat) :
    (l.map (fun s => if s.id == sid then updateSessionRow s data now else s)).find?
        (fun s => s.id == sid)
      = (l.find? (fun s => s.id == sid)).map
          (fun s => updateSessionRow s data now) := by
  induction l with
  | nil => rfl
  | cons s t ih =>
      cases hs : (s.id == sid) with
      | false =>
          rw [List.map_cons, if_neg (by simp [hs]),
            List.find?_cons_of_neg _ (by simp [hs]),
            List.find?_cons_of_neg _ (by simp [hs]), ih]
      | true =>
          rw [List.map_cons, if_pos hs,
            List.find?_cons_of_pos _ (by rw [id_updateSessionRow]; exact hs),
            List.find?_cons_of_pos _ (by exact hs)]
          rfl

theorem findSession_updateSession (db : TokenDatabase) (sid : String)
    (data : ProjectData) (now : Nat) :
    findSession (updateSession db sid data now) sid
      = (findSession db sid).map (fun s => updateSessionRow s data now) := by
  simpa [findSession, updateSession] using find?_map_update db.sessions sid data now

theorem findSession_getOrCreateSession (db : TokenDatabase) (sid pp : String)
    (now : Nat) :
    findSession (getOrCreateSession db sid pp now) sid
      = some ((findSession db sid).getD (newSessionRow sid pp now)) := by
  cases hf : findSession db sid with
  | some r => simp [getOrCreateSession, hf]
  | none =>
      have hnone : db.sessions.find? (fun s => s.id == sid) = none := hf
      simp [getOrCreateSession, findSession, hf, hnone, newSessionRow]

theorem map_update_of_find?_none (l : List SessionRow) (sid : String)
    (data : ProjectData) (now : Nat)
    (h : l.find? (fun s => s.id == sid) = none) :
    l.map (fun s => if s.id == sid then updateSessionRow s data now else s) = l := by
  induction l with
  | nil => rfl
  | cons s t ih =>
      cases hs : (s.id == sid) with
      | false =>
          rw [List.find?_cons_of_neg _ (by simp [hs])] at h
          rw [List.map_cons, if_neg (by simp [hs]), ih h]
      | true =>
          rw [List.find?_cons_of_pos _ (by exact hs)] at h
          exact absurd h (by simp)

/-- C8: ensuring a session is create-if-absent and idempotent. When a row with
the identifier already exists the database is returned unchanged, so the
existing record and its creation timestamp are untouched; only when no row
exists is a fresh row appended, with `started_at` set to the current instant. -/
theorem getOrCreateSession_create_if_absent (db : TokenDatabase)
    (sessionId projectPath : String) (now : Nat) :
    ((findSession db sessionId).isSome = true →
        getOrCreateSession db sessionId projectPath now = db) ∧
    (findSession db sessionId = none →
        (getOrCreateSession db sessionId projectPath now).sessions
          = db.sessions ++ [newSessionRow sessionId projectPath now]) := by
  constructor
  · intro h
    cases hf : findSession db sessionId with
    | some r => simp [getOrCreateSession, hf]
    | none => rw [hf] at h; simp at h
  · intro h
    simp [getOrCreateSession, h]

/-- Empty database, the state right after `initSchema`. -/
def emptyDb : TokenDatabase := { sessions := [], conversations := [], snapshots := [] }

/-- Tracker state as built by the constructor: empty registry, empty tables,
zero consecutive errors, ceiling 10. -/
def freshTracker : TrackerState :=
  { db := emptyDb, sessionSnapshots := [], activeSessions := [],
    consecutiveErrors := 0, maxErrors := 10 }

/-- Sample external project entry carrying session s1. -/
def samplePD : ProjectData :=
  { lastSessionId := some "s1", lastTotalInputTokens := some 10,
    lastTotalOutputTokens := some 0,
    lastTotalCacheCreationInputTokens := none,
    lastTotalCacheReadInputTokens := none, lastCost := some (1 / 1000),
    lastAPIDuration := none, lastDuration := none, lastLinesAdded := none,
    lastLinesRemoved := none, lastTotalWebSearchRequests := none }

/-- Sample database already holding a session row for s1. -/
def sampleDb : TokenDatabase :=
  { sessions := [newSessionRow "s1" "/p" 0], conversations := [], snapshots := [] }

theorem getOrCreateSession_create_if_absent_witness :
    getOrCreateSession sampleDb "s1" "/q" 5 = sampleDb ∧
    (getOrCreateSession emptyDb "s1" "/p" 5).sessions
      = emptyDb.sessions ++ [newSessionRow "s1" "/p" 5] :=
  ⟨(getOrCreateSession_create_if_absent sampleDb "s1" "/q" 5).1 (by decide),
   (getOrCreateSession_create_if_absent emptyDb "s1" "/p" 5).2 (by decide)⟩

theorem findSession_recordSnapshot (db : TokenDatabase) (sid pp x : String)
    (data : ProjectData) (now : Nat) :
    findSession (recordSnapshot db sid pp data now) x = findSession db x := rfl

/-- C3: a cycle that observes a session identifier with no previous snapshot
in the registry ensures the durable session row exists (appending a fresh row
with creation time `now` when the table had none), appends exactly one raw
snapshot record, and appends no delta record: a delta is only computed from
the second observation onward. -/
theorem processSession_first_observation (st : TrackerState)
    (projectPath sessionId : String) (pd : ProjectData) (now : Nat)
    (h : lookupSnapshot st.sessionSnapshots sessionId = none) :
    (processSession st projectPath sessionId pd now).db.snapshots
        = st.db.snapshots ++ [snapshotRowOf sessionId projectPath pd now] ∧
    (processSession st projectPath sessionId pd now).db.conversations
        = st.db.conversations ∧
    (findSession (processSession st projectPath sessionId pd now).db sessionId).isSome
        = true ∧
    (findSession st.db sessionId = none →
      (processSession st projectPath sessionId pd now).db.sessions
        = st.db.sessions
            ++ [updateSessionRow (newSessionRow sessionId projectPath now) pd now]) := by
  have hdb : (processSession st projectPath sessionId pd now).db
      = updateSession
          (recordSnapshot (getOrCreateSession st.db sessionId projectPath now)
            sessionId projectPath pd now)
          sessionId pd now := by
    simp [processSession, h]
  refine ⟨?_, ?_, ?_, ?_⟩
  · rw [hdb, snapshots_updateSession, snapshots_recordSnapshot,
      snapshots_getOrCreateSession]
  · rw [hdb, conversations_updateSession, conversations_recordSnapshot,
      conversations_getOrCreateSession]
  · rw [hdb, findSession_updateSession, findSession_recordSnapshot,
      findSession_getOrCreateSession]
    rfl
  · intro hnone
    have hgoc : (getOrCreateSession st.db sessionId projectPath now).sessions
        = st.db.sessions ++ [newSessionRow sessionId projectPath now] := by
      simp [getOrCreateSession, hnone]
    rw [hdb, sessions_updateSession, sessions_recordSnapshot, hgoc,
      List.map_append,
      map_update_of_find?_none st.db.sessions sessionId pd now hnone]
    simp [newSessionRow]

theorem processSession_first_observation_witness :
    (processSession freshTracker "/p" "s1" samplePD 7).db.snapshots
        = freshTracker.db.snapshots ++ [snapshotRowOf "s1" "/p" samplePD 7] ∧
    (processSession freshTracker "/p" "s1" samplePD 7).db.conversations
        = freshTracker.db.conversations ∧
    (findSession (processSession freshTracker "/p" "s1" samplePD 7).db "s1").isSome
        = true ∧
    (processSession freshTracker "/p" "s1" samplePD 7).db.sessions
        = freshTracker.db.sessions
            ++ [updateSessionRow (newSessionRow "s1" "/p" 7) samplePD 7] := by
  have h := processSession_first_observation freshTracker "/p" "s1" samplePD 7 (by decide)
  exact ⟨h.1, h.2.1, h.2.2.1, h.2.2.2 (by decide)⟩

/-- Sequence of `conversation_index` values of one session, in insertion
order. -/
def sessionIndices (db : TokenDatabase) (sessionId : String) : List Nat :=
  (db.conversations.filter (fun c => c.sessionId == sessionId)).map
    (fun c => c.conversationIndex)

/-- The delta records of every session carry the consecutive indices
1, 2, ..., n in insertion order. -/
def indicesConsecutive (db : TokenDatabase) : Prop :=
  ∀ sessionId : String,
    sessionIndices db sessionId
      = (List.range (sessionIndices db sessionId).length).map (fun i => i + 1)

/-- C9: `recordConversation` gives the appended row the per-session index
`n + 1` where `n` rows of that session already exist, and this keeps every
session totally ordered by consecutive indices starting at 1. -/
theorem recordConversation_consecutive_index (db : TokenDatabase)
    (sessionId : String) (d : DeltaRecord) (now : Nat)
    (h : indicesConsecutive db) :
    (recordConversation db sessionId d now).conversations
      = db.conversations ++
        [{ sessionId := sessionId,
           conversationIndex :=
             (db.conversations.filter (fun c => c.sessionId == sessionId)).length + 1,
           startedAt := now,
           inputTokens := d.input, outputTokens := d.output,
           cacheCreationTokens := d.cacheCreation,
           cacheReadTokens := d.cacheRead, costUsd := d.cost }] ∧
    indicesConsecutive (recordConversation db sessionId d now) := by
  constructor
  · rfl
  · intro x
    by_cases hx : x = sessionId
    · subst hx
      have hlen : (sessionIndices db x).length
          = (db.conversations.filter (fun c => c.sessionId == x)).length := by
        simp [sessionIndices]
      have hx2 : sessionIndices (recordConversation db x d now) x
          = sessionIndices db x
            ++ [(db.conversations.filter (fun c => c.sessionId == x)).length + 1] := by
        simp [sessionIndices, recordConversation, List.filter_append]
      rw [hx2, h x]
      rw [List.length_append, List.length_map, List.length_range, hlen]
      simp [List.range_succ]
    · have hx2 : sessionIndices (recordConversation db sessionId d now) x
          = sessionIndices db x := by
        have hne : (sessionId == x) = false := by
          simp [BEq.comm]
          exact fun hc => hx hc.symm
        simp [sessionIndices, recordConversation, List.filter_append, hne]
      rw [hx2]
      exact h x

theorem findSession_recordConversation (db : TokenDatabase) (sid x : String)
    (d : DeltaRecord) (now : Nat) :
    findSession (recordConversation db sid d now) x = findSession db x := rfl

theorem snapshots_processSession (st : TrackerState) (pp sid : String)
    (pd : ProjectData) (now : Nat) :
    (processSession st pp sid pd now).db.snapshots
      = st.db.snapshots ++ [snapshotRowOf sid pp pd now] := by
  unfold processSession
  cases hl : lookupSnapshot st.sessionSnapshots sid with
  | none =>
      simp [hl, snapshots_updateSession, snapshots_recordSnapshot,
        snapshots_getOrCreateSession]
  | some last =>
      cases hc : hasAnyTokenChange last (extractCompleteSnapshot pd now) with
      | false =>
          simp [hl, hc, snapshots_updateSession, snapshots_recordSnapshot,
            snapshots_getOrCreateSession]
      | true =>
          simp [hl, hc, snapshots_updateSession, snapshots_recordConversation,
            snapshots_recordSnapshot, snapshots_getOrCreateSession]

theorem findSession_processSession (st : TrackerState) (pp sid : String)
    (pd : ProjectData) (now : Nat) :
    findSession (processSession st pp sid pd now).db sid
      = some (updateSessionRow
          ((findSession st.db sid).getD (newSessionRow sid pp now)) pd now) := by
  unfold processSession
  cases hl : lookupSnapshot st.sessionSnapshots sid with
  | none =>
      simp [hl, findSession_updateSession, findSession_recordConversation,
        findSession_recordSnapshot, findSession_getOrCreateSession]
  | some last =>
      cases hc : hasAnyTokenChange last (extractCompleteSnapshot pd now) with
      | false =>
          simp [hl, hc, findSession_updateSession, findSession_recordConversation,
            findSession_recordSnapshot, findSession_getOrCreateSession]
      | true =>
          simp [hl, hc, findSession_updateSession, findSession_recordConversation,
            findSession_recordSnapshot, findSession_getOrCreateSession]

theorem sessionSnapshots_processSession (st : TrackerState) (pp sid : String)
    (pd : ProjectData) (now : Nat) :
    (processSession st pp sid pd now).sessionSnapshots
      = setSnapshot st.sessionSnapshots sid (extractCompleteSnapshot pd now) := by
  unfold processSession
  cases hl : lookupSnapshot st.sessionSnapshots sid <;> simp [hl]

theorem conversations_processSession_no_prior (st : TrackerState)
    (pp sid : String) (pd : ProjectData) (now : Nat)
    (h : lookupSnapshot st.sessionSnapshots sid = none) :
    (processSession st pp sid pd now).db.conversations = st.db.conversations := by
  simp [processSession, h, conversations_updateSession,
    conversations_recordSnapshot, conversations_getOrCreateSession]

theorem conversations_processSession_unchanged (st : TrackerState)
    (pp sid : String) (pd : ProjectData) (now : Nat) (last : Snapshot)
    (h : lookupSnapshot st.sessionSnapshots sid = some last)
    (hc : hasAnyTokenChange last (extractCompleteSnapshot pd now) = false) :
    (processSession st pp sid pd now).db.conversations = st.db.conversations := by
  simp [processSession, h, hc, conversations_updateSession,
    conversations_recordSnapshot, conversations_getOrCreateSession]

theorem find?_set_self (m : List (String × Snapshot)) (k : String) (v : Snapshot)
    (h : m.any (fun p => p.1 == k) = true) :
    (m.map (fun p => if p.1 == k then (k, v) else p)).find? (fun p => p.1 == k)
      = some (k, v) := by
  induction m with
  | nil => simp at h
  | cons p t ih =>
      cases hp : (p.1 == k) with
      | true =>
          rw [List.map_cons, if_pos hp, List.find?_cons_of_pos _ (by simp)]
      | false =>
          have ht : t.any (fun q => q.1 == k) = true := by
            simpa [List.any_cons, hp] using h
          rw [List.map_cons, if_neg (by simp [hp]),
            List.find?_cons_of_neg _ (by simp [hp]), ih ht]

theorem lookupSnapshot_setSnapshot_self (m : List (String × Snapshot))
    (k : String) (v : Snapshot) :
    lookupSnapshot (setSnapshot m k v) k = some v := by
  unfold setSnapshot
  by_cases h : m.any (fun p => p.1 == k) = true
  · rw [if_pos h]
    unfold lookupSnapshot
    rw [find?_set_self m k v h]
    rfl
  · rw [if_neg h]
    unfold lookupSnapshot
    have hnone : m.find? (fun p => p.1 == k) = none := by
      rw [List.find?_eq_none]
      intro x hx hpx
      exact h (List.any_eq_true.mpr ⟨x, hx, hpx⟩)
    rw [List.find?_append, hnone]
    simp

theorem hasAnyTokenChange_extract_same (pd : ProjectData) (n1 n2 : Nat) :
    hasAnyTokenChange (extractCompleteSnapshot pd n1)
      (extractCompleteSnapshot pd n2) = false := by
  simp only [hasAnyTokenChange, extractCompleteSnapshot, bne_self_eq_false,
    Bool.or_self, Bool.or_false, Bool.false_or, sub_self, abs_zero]
  rw [decide_eq_false]
  norm_num [costEpsilon]

theorem processAllSessions_singleton_state (st : TrackerState) (pp sid : String)
    (pd : ProjectData) (now : Nat) (hsid : pd.lastSessionId = some sid) :
    (processAllSessions st (Source.parsed (some [(pp, pd)])) now).state.db
        = (processSession st pp sid pd now).db ∧
    (processAllSessions st (Source.parsed (some [(pp, pd)])) now).state.sessionSnapshots
        = (processSession st pp sid pd now).sessionSnapshots := by
  simp [processAllSessions, processProjects, hsid]

/-- C4: every observation appends a raw snapshot record and upserts the
durable session totals to the current values, whether or not a change was
detected; hence two consecutive cycles over an unchanged external source
append zero delta records and exactly two raw snapshot records. -/
theorem processSession_audit_and_upsert (st : TrackerState)
    (projectPath sessionId : String) (pd : ProjectData) (now1 now2 : Nat) :
    (processSession st projectPath sessionId pd now1).db.snapshots
        = st.db.snapshots ++ [snapshotRowOf sessionId projectPath pd now1] ∧
    (∃ r, findSession (processSession st projectPath sessionId pd now1).db sessionId
          = some r ∧
        r.endedAt = some now1 ∧
        r.totalInputTokens = pd.lastTotalInputTokens.getD 0 ∧
        r.totalOutputTokens = pd.lastTotalOutputTokens.getD 0 ∧
        r.totalCacheCreationTokens = pd.lastTotalCacheCreationInputTokens.getD 0 ∧
        r.totalCacheReadTokens = pd.lastTotalCacheReadInputTokens.getD 0 ∧
        r.totalCostUsd = pd.lastCost.getD 0 ∧
        r.apiDurationMs = pd.lastAPIDuration.getD 0 ∧
        r.totalDurationMs = pd.lastDuration.getD 0 ∧
        r.linesAdded = pd.lastLinesAdded.getD 0 ∧
        r.linesRemoved = pd.lastLinesRemoved.getD 0 ∧
        r.webSearchRequests = pd.lastTotalWebSearchRequests.getD 0) ∧
    (lookupSnapshot st.sessionSnapshots sessionId = none →
     pd.lastSessionId = some sessionId →
      (processAllSessions
          (processAllSessions st (Source.parsed (some [(projectPath, pd)])) now1).state
          (Source.parsed (some [(projectPath, pd)])) now2).state.db.conversations
        = st.db.conversations ∧
      (processAllSessions
          (processAllSessions st (Source.parsed (some [(projectPath, pd)])) now1).state
          (Source.parsed (some [(projectPath, pd)])) now2).state.db.snapshots.length
        = st.db.snapshots.length + 2) := by
  refine ⟨snapshots_processSession st projectPath sessionId pd now1,
    ⟨updateSessionRow
        ((findSession st.db sessionId).getD (newSessionRow sessionId projectPath now1))
        pd now1,
      findSession_processSession st projectPath sessionId pd now1,
      rfl, rfl, rfl, rfl, rfl, rfl, rfl, rfl, rfl, rfl, rfl⟩, ?_⟩
  intro hl hsid
  obtain ⟨hdb1, hsnap1⟩ :=
    processAllSessions_singleton_state st projectPath sessionId pd now1 hsid
  obtain ⟨hdb2, hsnap2⟩ :=
    processAllSessions_singleton_state
      (processAllSessions st (Source.parsed (some [(projectPath, pd)])) now1).state
      projectPath sessionId pd now2 hsid
  have hlook2 : lookupSnapshot
      (processAllSessions st (Source.parsed (some [(projectPath, pd)])) now1).state.sessionSnapshots
      sessionId = some (extractCompleteSnapshot pd now1) := by
    rw [hsnap1, sessionSnapshots_processSession, lookupSnapshot_setSnapshot_self]
  constructor
  · rw [hdb2,
      conversations_processSession_unchanged _ projectPath sessionId pd now2
        (extractCompleteSnapshot pd now1) hlook2
        (hasAnyTokenChange_extract_same pd now1 now2),
      hdb1,
      conversations_processSession_no_prior st projectPath sessionId pd now1 hl]
  · rw [hdb2, snapshots_processSession, hdb1, snapshots_processSession]
    simp [List.length_append]

theorem processSession_audit_and_upsert_witness :
    (processAllSessions
        (processAllSessions freshTracker (Source.parsed (some [("/p", samplePD)])) 3).state
        (Source.parsed (some [("/p", samplePD)])) 4).state.db.conversations
      = freshTracker.db.conversations ∧
    (processAllSessions
        (processAllSessions freshTracker (Source.parsed (some [("/p", samplePD)])) 3).state
        (Source.parsed (some [("/p", samplePD)])) 4).state.db.snapshots.length
      = freshTracker.db.snapshots.length + 2 :=
  (processSession_audit_and_upsert freshTracker "/p" "s1" samplePD 3 4).2.2
    (by decide) (by decide)

/-- Sample delta of fifteen input tokens. -/
def sampleDelta : DeltaRecord :=
  { input := 15, output := 0, cacheCreation := 0, cacheRead := 0, cost := 0 }

theorem recordConversation_consecutive_index_witness :
    (recordConversation emptyDb "s1" sampleDelta 9).conversations
      = emptyDb.conversations ++
        [{ sessionId := "s1",
           conversationIndex :=
             (emptyDb.conversations.filter (fun c => c.sessionId == "s1")).length + 1,
           startedAt := 9,
           inputTokens := sampleDelta.input, outputTokens := sampleDelta.output,
           cacheCreationTokens := sampleDelta.cacheCreation,
           cacheReadTokens := sampleDelta.cacheRead,
           costUsd := sampleDelta.cost }] ∧
    indicesConsecutive (recordConversation emptyDb "s1" sampleDelta 9) :=
  recordConversation_consecutive_index emptyDb "s1" sampleDelta 9 (fun _ => rfl)

/-- C5: a missing external state file is a trivially successful cycle with
zero projects observed and no state damage, while unparseable content fails
the cycle, leaves the whole tracker state (in particular the registry of
last-known snapshots) untouched, and the failure increments the consecutive
error counter of the scheduler. -/
theorem processAllSessions_source_errors (st : TrackerState) (now : Nat) :
    (processAllSessions st Source.absent now).failed = false ∧
    (processAllSessions st Source.absent now).projectsObserved = 0 ∧
    (processAllSessions st Source.absent now).state.sessionSnapshots
        = st.sessionSnapshots ∧
    (processAllSessions st Source.absent now).state.db = st.db ∧
    (processAllSessions st Source.malformed now).failed = true ∧
    (processAllSessions st Source.malformed now).state = st ∧
    (∀ s : SchedState, s.stopped = false →
      (poll s Source.malformed now).1.tracker.consecutiveErrors
        = s.tracker.consecutiveErrors + 1) := by
  refine ⟨rfl, rfl, rfl, rfl, rfl, rfl, ?_⟩
  intro s hs
  by_cases hth : s.tracker.maxErrors ≤ s.tracker.consecutiveErrors + 1 <;>
    simp [poll, hs, processAllSessions, hth]

theorem processAllSessions_source_errors_witness :
    (poll (startAdaptivePolling freshTracker) Source.malformed 11).1.tracker.consecutiveErrors
      = (startAdaptivePolling freshTracker).tracker.consecutiveErrors + 1 :=
  (processAllSessions_source_errors freshTracker 11).2.2.2.2.2.2
    (startAdaptivePolling freshTracker) rfl

/-- C10: when two consecutive snapshots agree on the four token counters and
the cost but differ in linesAdded, linesRemoved or webSearchRequests, the
detector fires, yet the computed delta record carries only the five
token-and-cost fields, all zero, so line and web-search differences are never
represented in any delta record. -/
theorem lineOnly_change_zero_delta (prev cur : Snapshot) (st : TrackerState)
    (projectPath sessionId : String) (pd : ProjectData) (now : Nat)
    (h1 : cur.inputTokens = prev.inputTokens)
    (h2 : cur.outputTokens = prev.outputTokens)
    (h3 : cur.cacheCreationTokens = prev.cacheCreationTokens)
    (h4 : cur.cacheReadTokens = prev.cacheReadTokens)
    (h5 : cur.cost = prev.cost)
    (hdiff : cur.linesAdded ≠ prev.linesAdded ∨
             cur.linesRemoved ≠ prev.linesRemoved ∨
             cur.webSearchRequests ≠ prev.webSearchRequests) :
    hasAnyTokenChange prev cur = true ∧
    calculatePreciseDeltas prev cur
        = { input := 0, output := 0, cacheCreation := 0, cacheRead := 0, cost := 0 } ∧
    (lookupSnapshot st.sessionSnapshots sessionId = some prev →
     extractCompleteSnapshot pd now = cur →
      (processSession st projectPath sessionId pd now).db.conversations
        = st.db.conversations ++
          [{ sessionId := sessionId,
             conversationIndex :=
               (st.db.conversations.filter (fun c => c.sessionId == sessionId)).length + 1,
             startedAt := now, inputTokens := 0, outputTokens := 0,
             cacheCreationTokens := 0, cacheReadTokens := 0, costUsd := 0 }]) := by
  have hcost : decide (costEpsilon < |cur.cost - prev.cost|) = false := by
    rw [h5, sub_self, abs_zero, decide_eq_false]
    norm_num [costEpsilon]
  have hchange : hasAnyTokenChange prev cur = true := by
    rcases hdiff with h | h | h <;>
      simp [hasAnyTokenChange, h1, h2, h3, h4, hcost, h]
  have hdelta : calculatePreciseDeltas prev cur
      = { input := 0, output := 0, cacheCreation := 0, cacheRead := 0, cost := 0 } := by
    simp [calculatePreciseDeltas, h1, h2, h3, h4, h5]
  refine ⟨hchange, hdelta, ?_⟩
  intro hlook hext
  have hdbc : (processSession st projectPath sessionId pd now).db.conversations
      = (recordConversation
          (recordSnapshot (getOrCreateSession st.db sessionId projectPath now)
            sessionId projectPath pd now)
          sessionId (calculatePreciseDeltas prev cur) now).conversations := by
    simp [processSession, hlook, hext, hchange, conversations_updateSession]
  rw [hdbc, hdelta]
  simp [recordConversation, conversations_recordSnapshot,
    conversations_getOrCreateSession]

/-- Previous snapshot used in the C10 witness. -/
def samplePrev : Snapshot :=
  { inputTokens := 10, outputTokens := 0, cacheCreationTokens := 0,
    cacheReadTokens := 0, cost := 1, timestamp := 1, apiDuration := 0,
    totalDuration := 0, linesAdded := 0, linesRemoved := 0,
    webSearchRequests := 0 }

/-- Project entry equal to `samplePrev` except for five added lines. -/
def sampleLinesPD : ProjectData :=
  { lastSessionId := some "s1", lastTotalInputTokens := some 10,
    lastTotalOutputTokens := none, lastTotalCacheCreationInputTokens := none,
    lastTotalCacheReadInputTokens := none, lastCost := some 1,
    lastAPIDuration := none, lastDuration := none, lastLinesAdded := some 5,
    lastLinesRemoved := none, lastTotalWebSearchRequests := none }

/-- Tracker whose registry remembers `samplePrev` for session s1. -/
def sampleTrackerWithPrev : TrackerState :=
  { db := emptyDb, sessionSnapshots := [("s1", samplePrev)],
    activeSessions := [], consecutiveErrors := 0, maxErrors := 10 }

theorem lineOnly_change_zero_delta_witness :
    hasAnyTokenChange samplePrev (extractCompleteSnapshot sampleLinesPD 2) = true ∧
    calculatePreciseDeltas samplePrev (extractCompleteSnapshot sampleLinesPD 2)
        = { input := 0, output := 0, cacheCreation := 0, cacheRead := 0, cost := 0 } ∧
    (processSession sampleTrackerWithPrev "/p" "s1" sampleLinesPD 2).db.conversations
      = sampleTrackerWithPrev.db.conversations ++
        [{ sessionId := "s1",
           conversationIndex :=
             (sampleTrackerWithPrev.db.conversations.filter
               (fun c => c.sessionId == "s1")).length + 1,
           startedAt := 2, inputTokens := 0, outputTokens := 0,
           cacheCreationTokens := 0, cacheReadTokens := 0, costUsd := 0 }] := by
  have h := lineOnly_change_zero_delta samplePrev
    (extractCompleteSnapshot sampleLinesPD 2) sampleTrackerWithPrev "/p" "s1"
    sampleLinesPD 2 (by decide) (by decide) (by decide) (by decide) (by decide)
    (Or.inl (by decide))
  exact ⟨h.1, h.2.1, h.2.2 (by decide) rfl⟩

theorem consecutiveErrors_processSession (st : TrackerState) (pp sid : String)
    (pd : ProjectData) (now : Nat) :
    (processSession st pp sid pd now).consecutiveErrors = st.consecutiveErrors := rfl

theorem maxErrors_processSession (st : TrackerState) (pp sid : String)
    (pd : ProjectData) (now : Nat) :
    (processSession st pp sid pd now).maxErrors = st.maxErrors := rfl

theorem consecutiveErrors_processProjects (projects : List (String × ProjectData)) :
    ∀ (st : TrackerState) (now : Nat),
      (processProjects st projects now).consecutiveErrors = st.consecutiveErrors := by
  induction projects with
  | nil => intro st now; rfl
  | cons p rest ih =>
      intro st now
      have hstep : processProjects st (p :: rest) now
          = processProjects
              (match p.2.lastSessionId with
               | some sid => processSession st p.1 sid p.2 now
               | none =>
                   { st with activeSessions := removeActive st.activeSessions p.1 })
              rest now := rfl
      rw [hstep, ih]
      cases hsid : p.2.lastSessionId <;> simp [hsid, consecutiveErrors_processSession]

theorem consecutiveErrors_processAllSessions (st : TrackerState) (src : Source)
    (now : Nat) :
    (processAllSessions st src now).state.consecutiveErrors
      = st.consecutiveErrors := by
  cases src with
  | absent => rfl
  | malformed => rfl
  | parsed projects =>
      cases projects with
      | none => rfl
      | some l => simp [processAllSessions, consecutiveErrors_processProjects]

theorem poll_stopped (s : SchedState) (h : s.stopped = true) (src : Source)
    (now : Nat) : poll s src now = (s, false) := by
  simp [poll, h]

theorem pollRun_stopped (s : SchedState) (h : s.stopped = true)
    (events : List (Source × Nat)) : pollRun s events = s := by
  induction events with
  | nil => rfl
  | cons e t ih =>
      have hstep : pollRun s (e :: t) = pollRun (poll s e.1 e.2).1 t := rfl
      rw [hstep, poll_stopped s h, ih]

theorem malformed_run_stops (ts : List Nat) :
    ∀ s : SchedState, s.stopped = false →
      s.tracker.consecutiveErrors < s.tracker.maxErrors →
      s.tracker.maxErrors ≤ s.tracker.consecutiveErrors + ts.length →
      (pollRun s (ts.map (fun t => (Source.malformed, t)))).stopped = true ∧
      (pollRun s (ts.map (fun t => (Source.malformed, t)))).tracker.db
        = s.tracker.db := by
  induction ts with
  | nil =>
      intro s hstop hlt hce
      exact absurd hce (by simpa using Nat.not_le.mpr hlt)
  | cons t rest ih =>
      intro s hstop hlt hce
      have hstep : pollRun s (((t :: rest).map (fun u => (Source.malformed, u))))
          = pollRun (poll s Source.malformed t).1
              (rest.map (fun u => (Source.malformed, u))) := rfl
      by_cases hth : s.tracker.maxErrors ≤ s.tracker.consecutiveErrors + 1
      · have hs1 : (poll s Source.malformed t).1
            = { s with
                tracker := { s.tracker with
                  consecutiveErrors := s.tracker.consecutiveErrors + 1 },
                stopped := true } := by
          simp [poll, hstop, processAllSessions, hth]
        rw [hstep, hs1, pollRun_stopped _ rfl]
        exact ⟨rfl, rfl⟩
      · have hs1 : (poll s Source.malformed t).1
            = { s with
                tracker := { s.tracker with
                  consecutiveErrors := s.tracker.consecutiveErrors + 1 } } := by
          simp [poll, hstop, processAllSessions, hth]
        rw [hstep, hs1]
        have h1 := ih
          { s with
            tracker := { s.tracker with
              consecutiveErrors := s.tracker.consecutiveErrors + 1 } }
          hstop (by simpa using Nat.lt_of_not_le hth) (by simp at hce ⊢; omega)
        exact h1

/-- C6: the consecutive-failure counter is incremented by every failing cycle
and reset by every successful one; starting from a zero counter, a run of
ceiling-many consecutive malformed cycles leaves the scheduler stopped with
the database untouched, and once stopped the scheduler ignores every later
source reading, well-formed or not. -/
theorem scheduler_circuit_breaker (s : SchedState) (src : Source) (now : Nat)
    (ts : List Nat) :
    (s.stopped = false → (processAllSessions s.tracker src now).failed = true →
      (poll s src now).1.tracker.consecutiveErrors
        = s.tracker.consecutiveErrors + 1) ∧
    (s.stopped = false → (processAllSessions s.tracker src now).failed = false →
      (poll s src now).1.tracker.consecutiveErrors = 0) ∧
    (s.stopped = false → s.tracker.consecutiveErrors = 0 →
     0 < s.tracker.maxErrors → ts.length = s.tracker.maxErrors →
      (pollRun s (ts.map (fun t => (Source.malformed, t)))).stopped = true ∧
      (pollRun s (ts.map (fun t => (Source.malformed, t)))).tracker.db
          = s.tracker.db ∧
      (∀ (src2 : Source) (now2 : Nat),
        poll (pollRun s (ts.map (fun t => (Source.malformed, t)))) src2 now2
          = (pollRun s (ts.map (fun t => (Source.malformed, t))), false))) := by
  refine ⟨?_, ?_, ?_⟩
  · intro hstop hfail
    simp [poll, hstop, hfail, consecutiveErrors_processAllSessions]
    split <;> rfl
  · intro hstop hok
    by_cases hni :
        ((if 0 < (processAllSessions s.tracker src now).state.activeSessions.length
          then (500 : Nat) else 2000) != s.currentInterval) = true <;>
      simp [poll, hstop, hok, hni]
  · intro hstop hzero hpos hlen
    have h := malformed_run_stops ts s hstop (by omega) (by omega)
    exact ⟨h.1, h.2, fun src2 now2 => poll_stopped _ h.1 src2 now2⟩

/-- Tracker configured with a failure ceiling of three. -/
def breakerTracker : TrackerState :=
  { db := emptyDb, sessionSnapshots := [], activeSessions := [],
    consecutiveErrors := 0, maxErrors := 3 }

theorem scheduler_circuit_breaker_witness :
    (pollRun (startAdaptivePolling breakerTracker)
        ([0, 1, 2].map (fun t => (Source.malformed, t)))).stopped = true ∧
    (pollRun (startAdaptivePolling breakerTracker)
        ([0, 1, 2].map (fun t => (Source.malformed, t)))).tracker.db
        = (startAdaptivePolling breakerTracker).tracker.db ∧
    poll (pollRun (startAdaptivePolling breakerTracker)
        ([0, 1, 2].map (fun t => (Source.malformed, t))))
        (Source.parsed (some [("/p", samplePD)])) 9
      = (pollRun (startAdaptivePolling breakerTracker)
          ([0, 1, 2].map (fun t => (Source.malformed, t))), false) := by
  have h := (scheduler_circuit_breaker (startAdaptivePolling breakerTracker)
    Source.malformed 0 [0, 1, 2]).2.2 rfl rfl (by decide) rfl
  exact ⟨h.1, h.2.1, h.2.2 (Source.parsed (some [("/p", samplePD)])) 9⟩

theorem removeActive_filter_empty (active : List String) (x : String) :
    (removeActive active x).filter
        (fun p => (([x] : List String)).contains p) = [] := by
  rw [List.filter_eq_nil_iff]
  intro a ha
  unfold removeActive at ha
  have hne : (a != x) = true := (List.mem_filter.mp ha).2
  have hnx : a ≠ x := by simpa using hne
  simp [hnx]

theorem poll_success_state (s : SchedState) (src : Source) (now : Nat)
    (hstop : s.stopped = false)
    (hok : (processAllSessions s.tracker src now).failed = false) :
    (poll s src now).1.tracker.activeSessions
        = (processAllSessions s.tracker src now).state.activeSessions ∧
    (poll s src now).1.currentInterval
        = (if 0 < (processAllSessions s.tracker src now).state.activeSessions.length
           then 500 else 2000) := by
  by_cases hni :
      ((if 0 < (processAllSessions s.tracker src now).state.activeSessions.length
        then (500 : Nat) else 2000) != s.currentInterval) = true
  · simp [poll, hstop, hok, hni]
  · have hb :
        ((if 0 < (processAllSessions s.tracker src now).state.activeSessions.length
          then (500 : Nat) else 2000) != s.currentInterval) = false := by
      simpa using hni
    have heq :
        (if 0 < (processAllSessions s.tracker src now).state.activeSessions.length
         then (500 : Nat) else 2000) = s.currentInterval := by
      simpa using hb
    simp [poll, hstop, hok, hb, heq]

theorem poll_rearm_iff (s : SchedState) (src : Source) (now : Nat) :
    (poll s src now).2 = true ↔
      (poll s src now).1.currentInterval ≠ s.currentInterval := by
  by_cases hstop : s.stopped = true
  · simp [poll, hstop]
  · have hs : s.stopped = false := by simpa using hstop
    cases hok : (processAllSessions s.tracker src now).failed with
    | true =>
        simp [poll, hs, hok]
        split <;> simp
    | false =>
        by_cases hni :
            ((if 0 < (processAllSessions s.tracker src now).state.activeSessions.length
              then (500 : Nat) else 2000) != s.currentInterval) = true
        · have hne :
              (if 0 < (processAllSessions s.tracker src now).state.activeSessions.length
               then (500 : Nat) else 2000) ≠ s.currentInterval := by
            simpa using hni
          simp [poll, hs, hok, hni, hne]
        · have hb :
              ((if 0 < (processAllSessions s.tracker src now).state.activeSessions.length
                then (500 : Nat) else 2000) != s.currentInterval) = false := by
            simpa using hni
          simp [poll, hs, hok, hb]

/-- C7: after a successful cycle the next interval is the fast one (500)
exactly when at least one project is active and the slow one (2000)
otherwise; the repeating timer is re-armed exactly when the interval
changes; and a project observed without a session identifier is no longer
active afterwards, so a cycle whose only project dropped its session
identifier switches the interval from active to idle. -/
theorem adaptive_polling_transition (s : SchedState) (src : Source) (now : Nat)
    (projectPath : String) (pd : ProjectData) :
    ((poll s src now).2 = true ↔
      (poll s src now).1.currentInterval ≠ s.currentInterval) ∧
    (s.stopped = false → (processAllSessions s.tracker src now).failed = false →
      (poll s src now).1.currentInterval
        = (if 0 < (processAllSessions s.tracker src now).state.activeSessions.length
           then 500 else 2000)) ∧
    (s.stopped = false → pd.lastSessionId = none →
      (poll s (Source.parsed (some [(projectPath, pd)])) now).1.tracker.activeSessions.contains
          projectPath = false ∧
      (poll s (Source.parsed (some [(projectPath, pd)])) now).1.currentInterval
          = 2000 ∧
      (s.currentInterval = 500 →
        (poll s (Source.parsed (some [(projectPath, pd)])) now).2 = true)) := by
  refine ⟨poll_rearm_iff s src now, ?_, ?_⟩
  · intro hstop hok
    exact (poll_success_state s src now hstop hok).2
  · intro hstop hnone
    have hok : (processAllSessions s.tracker
        (Source.parsed (some [(projectPath, pd)])) now).failed = false := by
      simp [processAllSessions]
    have hact : (processAllSessions s.tracker
        (Source.parsed (some [(projectPath, pd)])) now).state.activeSessions = [] := by
      simp [processAllSessions, processProjects, hnone]
      intro a ha
      unfold removeActive at ha
      have hne : (a != projectPath) = true := (List.mem_filter.mp ha).2
      simpa using hne
    obtain ⟨hactp, hint⟩ := poll_success_state s
      (Source.parsed (some [(projectPath, pd)])) now hstop hok
    refine ⟨?_, ?_, ?_⟩
    · rw [hactp, hact]; rfl
    · rw [hint, hact]; rfl
    · intro h500
      refine (poll_rearm_iff s (Source.parsed (some [(projectPath, pd)])) now).mpr ?_
      rw [hint, hact, h500]
      simp

/-- Project entry that has dropped its session identifier. -/
def noSessionPD : ProjectData :=
  { lastSessionId := none, lastTotalInputTokens := none,
    lastTotalOutputTokens := none, lastTotalCacheCreationInputTokens := none,
    lastTotalCacheReadInputTokens := none, lastCost := none,
    lastAPIDuration := none, lastDuration := none, lastLinesAdded := none,
    lastLinesRemoved := none, lastTotalWebSearchRequests := none }

/-- Tracker with a single active project. -/
def trackerActive : TrackerState :=
  { db := emptyDb, sessionSnapshots := [], activeSessions := ["/p"],
    consecutiveErrors := 0, maxErrors := 10 }

/-- Scheduler polling fast with a single active project. -/
def sActive : SchedState :=
  { tracker := trackerActive, currentInterval := 500, stopped := false }

theorem adaptive_polling_transition_witness :
    (poll sActive (Source.parsed (some [("/p", noSessionPD)])) 5).1.currentInterval
        = (if 0 < (processAllSessions sActive.tracker
              (Source.parsed (some [("/p", noSessionPD)])) 5).state.activeSessions.length
           then 500 else 2000) ∧
    (poll sActive (Source.parsed (some [("/p", noSessionPD)])) 5).1.tracker.activeSessions.contains
        "/p" = false ∧
    (poll sActive (Source.parsed (some [("/p", noSessionPD)])) 5).1.currentInterval
        = 2000 ∧
    (poll sActive (Source.parsed (some [("/p", noSessionPD)])) 5).2 = true := by
  have h := adaptive_polling_transition sActive
    (Source.parsed (some [("/p", noSessionPD)])) 5 "/p" noSessionPD
  have h3 := h.2.2 (by rfl) rfl
  exact ⟨h.2.1 (by rfl) (by rfl), h3.1, h3.2.1, h3.2.2 (by rfl)⟩
